/-
Verification of the SMS store (src/smsdb.c) and monitor loop
(src/monitor_thread.c) of asterisk-chan-quectel.

The SQLite-backed tables are shallowly embedded as Lean lists; each store
function is translated statement-by-statement from the C source, keeping the
original control flow (including dead assignments and unconditional
overwrites present in the source).  Where a claim concerns bind/step
failures of a specific SQL statement, the corresponding function takes an
explicit boolean oracle for that statement's success.
-/
import Mathlib

/-! ## Incoming table: `incoming(key, seqorder, expiration, message)`, PK(key, seqorder) -/

/-- One row of the `incoming` table.  The `expiration` column is not read by
any of the operations under verification and is omitted. -/
structure IncRow where
  key : String
  seqorder : Int
  message : String
deriving DecidableEq

abbrev IncTable := List IncRow

/-- `put_message` statement: INSERT OR REPLACE INTO incoming with
PRIMARY KEY (key, seqorder) — any conflicting row is replaced. -/
def put_message (tbl : IncTable) (k : String) (o : Int) (m : String) : IncTable :=
  tbl.filter (fun r => !(r.key == k && r.seqorder == o)) ++ [⟨k, o, m⟩]

/-- `get_cnt` statement: SELECT COUNT(seqorder) FROM incoming WHERE key = ?. -/
def get_cnt (tbl : IncTable) (k : String) : Nat :=
  (tbl.filter (fun r => r.key == k)).length

/-- `get_full_message` statement: SELECT message FROM incoming WHERE key = ?
ORDER BY seqorder. -/
def get_full_message (tbl : IncTable) (k : String) : List String :=
  ((tbl.filter (fun r => r.key == k)).insertionSort
    (fun a b => a.seqorder ≤ b.seqorder)).map (fun r => r.message)

/-- `clear_messages` statement: DELETE FROM incoming WHERE key = ?. -/
def clear_messages (tbl : IncTable) (k : String) : IncTable :=
  tbl.filter (fun r => !(r.key == k))

/-- The composite key built by `smsdb_put`: "%s/%s/%d/%d" of id, addr, ref, parts. -/
def smsdb_fullkey (id addr : String) (ref parts : Int) : String :=
  id ++ "/" ++ addr ++ "/" ++ toString ref ++ "/" ++ toString parts

/-- `smsdb_put`, translated line by line from src/smsdb.c:386-465.
`putOk` models success of the binds/step of the `put_message` statement,
`cntOk` success of the bind/step of the `get_cnt` statement.

Faithful quirks of the source kept here:
* after the `get_cnt` block, `res` is unconditionally overwritten by
  `sqlite3_column_int(get_cnt, 0)`, which yields the count on success and 0
  when the statement did not produce a row — the earlier `-1` assignments
  are dead;
* the completion branch is guarded by `res > 0 && order == parts`, not by a
  comparison of the row count to `parts`.
Returns (return value, output buffer written or not, new table). -/
def smsdb_put (tbl : IncTable) (k : String) (parts order : Int) (msg : String)
    (putOk cntOk : Bool) : Int × Option String × IncTable :=
  -- put_message block: on bind/step failure res = -1 and no row is stored
  let res : Int := if putOk then 0 else -1
  let tbl1 : IncTable := if putOk then put_message tbl k order msg else tbl
  -- get_cnt block: res is set to -1 on failure but then unconditionally
  -- overwritten by the column value (0 if the step produced no row)
  let res : Int := if cntOk then ((get_cnt tbl1 k : Nat) : Int) else 0
  if res > 0 ∧ order = parts then
    -- get_full_message loop writes the concatenation into out,
    -- then clear_messages deletes the key's rows (res still ≥ 0 here)
    (res, some (String.join (get_full_message tbl1 k)), clear_messages tbl1 k)
  else
    (res, none, tbl1)

/-! ## Reference-id table: `outgoing_ref(key, refid)`, PK(key) -/

abbrev RefTable := List (String × Int)

/-- `get_outgoingref` statement: SELECT refid FROM outgoing_ref WHERE key = ?. -/
def get_outgoingref (t : RefTable) (k : String) : Option Int :=
  (t.find? (fun p => p.1 == k)).map (fun p => p.2)

/-- `ins_outgoingref` statement: INSERT INTO outgoing_ref (refid, key). -/
def ins_outgoingref (t : RefTable) (k : String) (v : Int) : RefTable :=
  t ++ [(k, v)]

/-- `set_outgoingref` statement: UPDATE outgoing_ref SET refid = ? WHERE key = ?. -/
def set_outgoingref (t : RefTable) (k : String) (v : Int) : RefTable :=
  t.map (fun p => if p.1 == k then (k, v) else p)

/-- `smsdb_get_refid`, translated from src/smsdb.c:467-514: look up the current
refid for key "%s/%s" (not found → 255 and the insert statement is selected),
then, since `res ≥ 0`, increment, wrap at 256 and upsert the new value. -/
def smsdb_get_refid (t : RefTable) (id addr : String) : Int × RefTable :=
  let k := id ++ "/" ++ addr
  let found := get_outgoingref t k
  let res : Int := match found with | none => 255 | some r => r
  if res ≥ 0 then
    let res2 := res + 1
    let res3 := if res2 ≥ 256 then 0 else res2
    (res3, match found with
           | none => ins_outgoingref t k res3
           | some _ => set_outgoingref t k res3)
  else
    (res, t)

/-- `n` successive `smsdb_get_refid` calls for one (id, addr) pair; the list
of returned reference ids, in call order. -/
def refid_run (t : RefTable) (id addr : String) : Nat → List Int
  | 0 => []
  | n + 1 =>
    let step := smsdb_get_refid t id addr
    step.1 :: refid_run step.2 id addr n

/-! ## Outgoing tables: `outgoing_msg` and `outgoing_part` -/

/-- One row of `outgoing_msg(uid, dev, dst, cnt, expiration, srr)`.
`expiration` is kept as an absolute timestamp; operations that compare it
with CURRENT_TIMESTAMP receive the current time as a parameter. -/
structure OutMsg where
  uid : Int
  dev : String
  dst : String
  cnt : Int
  expiration : Int
  srr : Bool
deriving DecidableEq

/-- One row of `outgoing_part(key, msg, status)`, PK(key); `rowid` is the
implicit SQLite rowid (assigned in insertion order), `status` is NULL until
a delivery report arrives. -/
structure OutPart where
  rowid : Int
  key : String
  msg : Int
  status : Option Int
deriving DecidableEq

/-- The outgoing side of the store.  `nextRowid` models SQLite's next
implicit rowid for `outgoing_part`. -/
structure OutDB where
  msgs : List OutMsg
  parts : List OutPart
  nextRowid : Int
deriving DecidableEq

/-- The composite part key "%s/%s/%d" of device, destination and message
reference used by `smsdb_outgoing_part_put` / `smsdb_outgoing_part_status`. -/
def outgoing_part_key (id addr : String) (mr : Int) : String :=
  id ++ "/" ++ addr ++ "/" ++ toString mr

/-- The WHERE clause of the `cnt_outgoingpart` statement:
`p.status & 64 != 0 OR p.status & 32 = 0`.  A NULL status satisfies neither
disjunct in SQL, hence is not terminal. -/
def statusTerminal : Option Int → Bool
  | none => false
  | some v => !(Int.land v 64 == 0) || (Int.land v 32 == 0)

/-- `get_all_status` statement: SELECT status FROM outgoing_part WHERE
msg = ? ORDER BY rowid; `sqlite3_column_int` turns a NULL status into 0. -/
def get_all_status (db : OutDB) (uid : Int) : List Int :=
  ((db.parts.filter (fun p => p.msg == uid)).insertionSort
    (fun a b => a.rowid ≤ b.rowid)).map (fun p => p.status.getD 0)

/-- `smsdb_outgoing_clear_nolock` (src/smsdb.c:547-572): DELETE FROM
outgoing_msg WHERE uid = ? and DELETE FROM outgoing_part WHERE msg = ?. -/
def smsdb_outgoing_clear_nolock (db : OutDB) (uid : Int) : OutDB :=
  { db with msgs := db.msgs.filter (fun m => !(m.uid == uid)),
            parts := db.parts.filter (fun p => !(p.msg == uid)) }

/-- `smsdb_outgoing_part_put`, translated from src/smsdb.c:599-682.
Looks up the message, inserts a part row keyed "%s/%s/%d" (the plain INSERT
steps fail on a duplicate key, giving res = -1), then — following the
source's `if (!srr) res = -2;` guard — continues to the all-parts-inserted
count, destination fetch and purge only when `srr` is set.
Returns (return value, dst output written on success, new db). -/
def smsdb_outgoing_part_put (db : OutDB) (uid refid : Int) :
    Int × Option String × OutDB :=
  match db.msgs.find? (fun m => m.uid == uid) with
  | none => (-2, none, db)
  | some m =>
    let srr := m.srr
    let fullkey := outgoing_part_key m.dev m.dst refid
    let dup := (db.parts.find? (fun p => p.key == fullkey)).isSome
    let res : Int := if dup then -1 else 0
    let db1 : OutDB :=
      if dup then db
      else { db with parts := db.parts ++ [⟨db.nextRowid, fullkey, uid, none⟩],
                     nextRowid := db.nextRowid + 1 }
    -- source: `if (!srr) { res = -2; }` (overwrites any earlier -1 as well)
    let res : Int := if srr then res else -2
    if res ≥ 0 then
      -- cnt_all_outgoingpart: m.cnt vs COUNT of all part rows of this message
      let cur := m.cnt
      let cnt : Int := ((db1.parts.filter (fun p => p.msg == uid)).length : Nat)
      if cur ≠ cnt then (-2, none, db1)
      else
        -- get_dst succeeds (the message row exists), then clear
        (res, some m.dst, smsdb_outgoing_clear_nolock db1 uid)
    else (res, none, db1)

/-- `smsdb_outgoing_part_status`, translated from src/smsdb.c:684-762.
Finds the part by key "%s/%s/%d", writes the new status by rowid, compares
the declared part count `m.cnt` with the count of parts whose status is
terminal (`status & 64 != 0 OR status & 32 = 0`); when they differ returns
-2 without touching anything else; when they agree, reads all statuses of
the message in rowid order, appends the -1 sentinel and purges the
message's rows.  Returns (return value, status_all as written, new db);
the status array is untouched (modelled as []) on the error paths. -/
def smsdb_outgoing_part_status (db : OutDB) (id addr : String) (mr st : Int) :
    Int × List Int × OutDB :=
  let fullkey := outgoing_part_key id addr mr
  match db.parts.find? (fun p => p.key == fullkey) with
  | none => (-1, [], db)
  | some p =>
    let partid := p.rowid
    let uid := p.msg
    -- set_outgoingpart: UPDATE outgoing_part SET status = ? WHERE rowid = ?
    let db1 : OutDB :=
      { db with parts := db.parts.map (fun q =>
          if q.rowid == partid then { q with status := some st } else q) }
    -- cnt_outgoingpart: SELECT m.cnt, COUNT(terminal parts) WHERE m.rowid = ?
    match db1.msgs.find? (fun m => m.uid == uid) with
    | none => (-1, [], db1)
    | some m =>
      let cur := m.cnt
      let cnt : Int := ((db1.parts.filter
        (fun q => q.msg == uid && statusTerminal q.status)).length : Nat)
      if cur ≠ cnt then (-2, [], db1)
      else
        (0, get_all_status db1 uid ++ [-1], smsdb_outgoing_clear_nolock db1 uid)

/-- `smsdb_outgoing_purge_one`, translated from src/smsdb.c:764-785.
`res` is initialised to -1; the `get_expired` block writes the uid and
destination of the first expired message but never assigns `res`, so the
final `if (res >= 0)` purge is dead code and the function always returns
-1 with the store unchanged. -/
def smsdb_outgoing_purge_one (db : OutDB) (now : Int) :
    Int × Option (Int × String) × OutDB :=
  let res : Int := -1
  match db.msgs.find? (fun m => decide (m.expiration < now)) with
  | none => (res, none, db)
  | some m =>
    if res ≥ 0 then (res, some (m.uid, m.dst), smsdb_outgoing_clear_nolock db m.uid)
    else (res, some (m.uid, m.dst), db)

/-! ## Monitor loop (src/monitor_thread.c) -/

/-- Tasks the monitor loop pushes onto the per-device serializer. -/
inductive MonTask
  | expiredReports
  | ping
  | cmdTimeout
  | restartMonitor
deriving DecidableEq

/-- Observable events of one monitor-loop iteration, in program order. -/
inductive MonEvent
  | push (t : MonTask)
  | wait (ms : Int)
  | readData
  | gotoCleanup
  | gotoRestart
deriving DecidableEq

def TASKPROCESSOR_HIGH_WATER : Int := 400

/-- `check_taskprocessor` (src/monitor_thread.c:38-46): true when the
serializer backlog has reached the high-water mark. -/
def check_taskprocessor (size : Int) : Bool :=
  decide (size ≥ TASKPROCESSOR_HIGH_WATER)

def RESPONSE_READ_TIMEOUT : Int := 10000
def UNHANDLED_COMMAND_TIMEOUT : Int := 500

/-- One iteration of the `while (1)` loop of `monitor_threadproc_pvt`
(src/monitor_thread.c:187-288), as the ordered list of its observable
events.  Inputs: whether the device-lock trylock failed, the device-health
and terminate checks, the pending command deadline (`none` when
`at_queue_timeout` reports no deadline), the serializer depth, and whether
the descriptor wait reports data. -/
def monitor_iteration (lockFailed devFail terminate : Bool)
    (queueDeadline : Option Int) (tpsSize : Int) (dataReady : Bool) :
    List MonEvent :=
  [MonEvent.push MonTask.expiredReports] ++
  (if lockFailed then
    -- pvt unlocked: wait the long timeout; on pure timeout push a ping
    [MonEvent.wait RESPONSE_READ_TIMEOUT] ++
      (if dataReady then [MonEvent.readData] else [MonEvent.push MonTask.ping])
  else if devFail then [MonEvent.gotoCleanup]
  else if terminate then [MonEvent.gotoRestart]
  else
    match queueDeadline with
    | some t =>
      if t ≤ 0 then
        -- deadline already elapsed: maybe restart-monitor, then cmd-timeout,
        -- then wait the short 500 ms interval
        (if check_taskprocessor tpsSize then [MonEvent.push MonTask.restartMonitor] else []) ++
          [MonEvent.push MonTask.cmdTimeout,
           MonEvent.wait UNHANDLED_COMMAND_TIMEOUT] ++
          (if dataReady then [MonEvent.readData] else [])
      else
        [MonEvent.wait t] ++
          (if dataReady then [MonEvent.readData] else [MonEvent.push MonTask.cmdTimeout])
    | none =>
      [MonEvent.wait RESPONSE_READ_TIMEOUT] ++
        (if dataReady then [MonEvent.readData]
         else
           (if check_taskprocessor tpsSize then [MonEvent.push MonTask.restartMonitor] else []) ++
             [MonEvent.push MonTask.ping]))

/-- The head command of the AT queue, as consulted by `cmd_timeout`. -/
structure AtQueueCmd where
  length : Int
  flagIgnore : Bool
deriving DecidableEq

/-- `cmd_timeout` (src/monitor_thread.c:78-96) acting on the
`terminate_monitor` flag.  `ecmd` is the queue head (`none` if the queue is
empty), `respFail` the result of `at_response(..., RES_TIMEOUT)`. -/
def cmd_timeout (terminate : Bool) (ecmd : Option AtQueueCmd) (respFail : Bool) :
    Bool :=
  match ecmd with
  | none => terminate
  | some c =>
    if c.length ≠ 0 then terminate
    else if respFail then true
    else if c.flagIgnore then terminate
    else true

/-! ## Claim theorems -/

/-- C1: with key A/B/7/2 and total_parts = 2, supplying order 2 ("lo") and
then order 1 ("Hel") — each order exactly once — the code emits the output
"lo" already on the first call (row count 1), emits nothing on the second,
and one row for the key remains afterwards; the claimed behaviour (the
completing call yields "Hello" and zero rows remain) does not occur. -/
theorem smsdb_put_out_of_order_divergence :
    (smsdb_put [] (smsdb_fullkey "A" "B" 7 2) 2 2 "lo" true true).2.1 = some "lo" ∧
    (smsdb_put (smsdb_put [] (smsdb_fullkey "A" "B" 7 2) 2 2 "lo" true true).2.2
      (smsdb_fullkey "A" "B" 7 2) 2 1 "Hel" true true).2.1 = none ∧
    ((smsdb_put (smsdb_put [] (smsdb_fullkey "A" "B" 7 2) 2 2 "lo" true true).2.2
      (smsdb_fullkey "A" "B" 7 2) 2 1 "Hel" true true).2.2.filter
        (fun r => r.key == smsdb_fullkey "A" "B" 7 2)).length = 1 := by decide

/-- C2: on an empty store, a single call with total_parts = 2 and order = 2
concatenates and deletes although the stored row count is 1 ≠ 2: the code's
completion guard is `res > 0 && order == parts`, not a comparison of the
row count with total_parts. -/
theorem smsdb_put_early_completion :
    smsdb_put [] (smsdb_fullkey "A" "B" 7 2) 2 2 "lo" true true =
      (1, some "lo", []) ∧ (1 : Int) ≠ 2 := by decide

/-- C3: on a store holding one outgoing message past its expiration
(expiration -5 < now 0), `smsdb_outgoing_purge_one` returns the error
result -1 and leaves the store unchanged — the success path is dead because
`res` is never set after the expired row is fetched — instead of returning
the message id and destination with success and deleting its rows. -/
theorem smsdb_outgoing_purge_one_never_purges :
    smsdb_outgoing_purge_one
        ⟨[⟨1, "D", "N", 1, -5, true⟩], [⟨0, "D/N/3", 1, some 0⟩], 1⟩ 0 =
      (-1, some (1, "N"),
        ⟨[⟨1, "D", "N", 1, -5, true⟩], [⟨0, "D/N/3", 1, some 0⟩], 1⟩) := by decide

/-- C4: `smsdb_outgoing_part_put` purges a message that requested status
reports (srr = true) as soon as all of its declared parts are inserted,
while its only part still has a NULL (non-terminal) status and the message
is unexpired (expiration 100, now 0) — violating the claimed purge
invariant.  The source's `if (!srr) res = -2;` guard contradicts the
adjacent comment, which reserves the count-and-purge step for messages
without status reports. -/
theorem smsdb_outgoing_part_put_purges_srr_message :
    smsdb_outgoing_part_put ⟨[⟨1, "D", "N", 1, 100, true⟩], [], 0⟩ 1 5 =
      (0, some "N", ⟨[], [], 1⟩) ∧
    statusTerminal none = false ∧
    ((100 : Int) < 0) = False := by decide

/-- C8: bind/step failures inside `smsdb_put` are masked: with one row
already stored for the key, a failing insert statement still returns the
positive row count 1, and a failing row-count statement returns 0 (the
column default) — never the claimed negative error sentinel. -/
theorem smsdb_put_masks_bind_failures :
    (smsdb_put [⟨"K", 1, "a"⟩] "K" 3 2 "b" false true).1 = 1 ∧
    (smsdb_put [] "K" 2 1 "a" true false).1 = 0 := by decide

/-- C6 counterexample: calling `smsdb_put` twice with the same key and the
order value 2 = total_parts leaves zero rows for that (key, order) — not the
claimed single replaced row — because each call triggers the
concatenate-and-delete branch. -/
theorem smsdb_put_duplicate_at_last_order :
    ((smsdb_put (smsdb_put [] "K" 2 2 "x" true true).2.2 "K" 2 2 "y" true true).2.2.filter
      (fun r => r.key == "K" && r.seqorder == 2)).length ≠ 1 := by decide

/-- C7 counterexample: two stores that differ only in the message's
destination ("N1" vs "N2") produce identical observable outputs (return
value and status array) from the settling `smsdb_outgoing_part_status`
call, so the function does not return the destination. -/
theorem part_status_output_ignores_destination :
    (let o := smsdb_outgoing_part_status
        ⟨[⟨1, "D", "N1", 1, 100, true⟩], [⟨0, "D/N1/5", 1, none⟩], 1⟩ "D" "N1" 5 0
     let o2 := smsdb_outgoing_part_status
        ⟨[⟨1, "D", "N2", 1, 100, true⟩], [⟨0, "D/N2/5", 1, none⟩], 1⟩ "D" "N2" 5 0
     o.1 = 0 ∧ o2.1 = 0 ∧ (o.1, o.2.1) = (o2.1, o2.2.1)) ∧
    ("N1" : String) ≠ "N2" := by decide

/-- C9: in a locked monitor iteration with a pending command whose deadline
has elapsed (t ≤ 0) and a serializer depth at or above the high-water mark,
the iteration pushes the restart-monitor task and then the command-timeout
task, in that order, and then waits the 500 ms interval. -/
theorem monitor_pushes_restart_then_timeout (tpsSize t : Int) (dataReady : Bool)
    (ht : t ≤ 0) (hsize : TASKPROCESSOR_HIGH_WATER ≤ tpsSize) :
    monitor_iteration false false false (some t) tpsSize dataReady =
      [MonEvent.push MonTask.expiredReports, MonEvent.push MonTask.restartMonitor,
       MonEvent.push MonTask.cmdTimeout, MonEvent.wait UNHANDLED_COMMAND_TIMEOUT] ++
        (if dataReady then [MonEvent.readData] else []) := by
  simp [monitor_iteration, check_taskprocessor, ht, hsize]

/-- Witness for C9 at serializer depth 401 and an already-elapsed deadline. -/
theorem monitor_pushes_restart_then_timeout_witness :
    monitor_iteration false false false (some 0) 401 false =
      [MonEvent.push MonTask.expiredReports, MonEvent.push MonTask.restartMonitor,
       MonEvent.push MonTask.cmdTimeout, MonEvent.wait 500] := by
  have h := monitor_pushes_restart_then_timeout 401 0 false (by decide) (by decide)
  simpa [UNHANDLED_COMMAND_TIMEOUT] using h

/-- C10: `cmd_timeout` leaves the terminate flag unchanged when there is no
head command or the head command has nonzero remaining length; sets it when
response handling fails; leaves it unchanged for a successfully handled
timeout of a command with the ignore flag; and sets it for a timed-out
non-ignored command. -/
theorem cmd_timeout_terminate_behavior (term : Bool) (c : AtQueueCmd)
    (respFail : Bool) :
    (cmd_timeout term none respFail = term) ∧
    (c.length ≠ 0 → cmd_timeout term (some c) respFail = term) ∧
    (c.length = 0 → respFail = true → cmd_timeout term (some c) respFail = true) ∧
    (c.length = 0 → respFail = false → c.flagIgnore = true →
      cmd_timeout term (some c) respFail = term) ∧
    (c.length = 0 → respFail = false → c.flagIgnore = false →
      cmd_timeout term (some c) respFail = true) := by
  obtain ⟨len, ign⟩ := c
  refine ⟨rfl, ?_, ?_, ?_, ?_⟩ <;> intros <;> subst_eqs <;> simp_all [cmd_timeout]

/-- Witness for C10: an ignored command's timeout keeps the monitor running,
a non-ignored one terminates it. -/
theorem cmd_timeout_terminate_behavior_witness :
    cmd_timeout false (some ⟨0, true⟩) false = false ∧
    cmd_timeout false (some ⟨0, false⟩) false = true :=
  ⟨(cmd_timeout_terminate_behavior false ⟨0, true⟩ false).2.2.2.1 rfl rfl rfl,
   (cmd_timeout_terminate_behavior false ⟨0, false⟩ false).2.2.2.2 rfl rfl rfl⟩

/-- A non-completing `smsdb_put` call (order ≠ parts) returns the row count
and the upserted table and writes no output. -/
lemma smsdb_put_of_order_ne (tbl : IncTable) (k : String) (parts order : Int)
    (m : String) (h : order ≠ parts) :
    smsdb_put tbl k parts order m true true =
      ((get_cnt (put_message tbl k order m) k : Int), none,
        put_message tbl k order m) := by
  simp [smsdb_put, h]

/-- Upserting the same (key, order) twice is the same as upserting once with
the second message. -/
lemma put_message_idem (tbl : IncTable) (k : String) (o : Int) (m1 m2 : String) :
    put_message (put_message tbl k o m1) k o m2 = put_message tbl k o m2 := by
  unfold put_message
  rw [List.filter_append]
  simp [List.filter_filter]

/-- After an upsert, the rows matching the upserted (key, order) are exactly
the new row. -/
lemma filter_put_message_key_order (tbl : IncTable) (k : String) (o : Int)
    (m : String) :
    (put_message tbl k o m).filter (fun r => r.key == k && r.seqorder == o) =
      [⟨k, o, m⟩] := by
  unfold put_message
  rw [List.filter_append]
  simp [List.filter_filter]

/-- The per-key row count after an upsert does not depend on the message. -/
lemma get_cnt_put_message (tbl : IncTable) (k : String) (o : Int) (m : String) :
    get_cnt (put_message tbl k o m) k =
      ((tbl.filter (fun r => !(r.key == k && r.seqorder == o))).filter
        (fun r => r.key == k)).length + 1 := by
  simp [get_cnt, put_message, List.filter_append]

/-- C6 (amended): for a call that does not trigger the concatenate-and-delete
branch (order ≠ total_parts), a second `smsdb_put` with the same (key, order)
replaces the stored text — exactly one row for that (key, order) remains,
holding the new text — returns the same row count as the first call, and
yields the same table as a single upsert of the new text. -/
theorem smsdb_put_duplicate_replaces (tbl : IncTable) (k : String)
    (parts order : Int) (m1 m2 : String) (h : order ≠ parts) :
    ((smsdb_put (smsdb_put tbl k parts order m1 true true).2.2
        k parts order m2 true true).2.2.filter
        (fun r => r.key == k && r.seqorder == order)) = [⟨k, order, m2⟩] ∧
    (smsdb_put (smsdb_put tbl k parts order m1 true true).2.2
        k parts order m2 true true).1 =
      (smsdb_put tbl k parts order m1 true true).1 ∧
    (smsdb_put (smsdb_put tbl k parts order m1 true true).2.2
        k parts order m2 true true).2.2 =
      (smsdb_put tbl k parts order m2 true true).2.2 := by
  have h1 := smsdb_put_of_order_ne tbl k parts order m1 h
  have h2 := smsdb_put_of_order_ne (put_message tbl k order m1) k parts order m2 h
  have h3 := smsdb_put_of_order_ne tbl k parts order m2 h
  refine ⟨?_, ?_, ?_⟩ <;>
    simp [h1, h2, h3, put_message_idem, filter_put_message_key_order,
      get_cnt_put_message]

/-- Witness for C6 (amended) at a concrete duplicate insertion. -/
theorem smsdb_put_duplicate_replaces_witness :
    ((smsdb_put (smsdb_put [] "K" 2 1 "a" true true).2.2
        "K" 2 1 "b" true true).2.2.filter
        (fun r => r.key == "K" && r.seqorder == 1)) = [⟨"K", 1, "b"⟩] ∧
    (smsdb_put (smsdb_put [] "K" 2 1 "a" true true).2.2
        "K" 2 1 "b" true true).1 =
      (smsdb_put [] "K" 2 1 "a" true true).1 ∧
    (smsdb_put (smsdb_put [] "K" 2 1 "a" true true).2.2
        "K" 2 1 "b" true true).2.2 =
      (smsdb_put [] "K" 2 1 "b" true true).2.2 :=
  smsdb_put_duplicate_replaces [] "K" 2 1 "a" "b" (by decide)

/-- Inserting a fresh key makes it visible to `get_outgoingref`. -/
lemma get_outgoingref_ins (t : RefTable) (k : String) (v : Int)
    (h : get_outgoingref t k = none) :
    get_outgoingref (ins_outgoingref t k v) k = some v := by
  have hf : t.find? (fun p => p.1 == k) = none := by
    unfold get_outgoingref at h
    cases hf : t.find? (fun p => p.1 == k) with
    | none => rfl
    | some p => rw [hf] at h; simp at h
  unfold get_outgoingref ins_outgoingref
  rw [List.find?_append, hf]
  simp

/-- The key lookup after `set_outgoingref` finds the updated pair whenever
the key was present. -/
lemma find_set_outgoingref (t : RefTable) (k : String) (v : Int) :
    (set_outgoingref t k v).find? (fun p => p.1 == k) =
      (t.find? (fun p => p.1 == k)).map (fun _ => (k, v)) := by
  induction t with
  | nil => rfl
  | cons a t ih =>
    by_cases hk : a.1 = k
    · rw [show set_outgoingref (a :: t) k v = (k, v) :: set_outgoingref t k v by
        simp [set_outgoingref, hk]]
      rw [List.find?_cons_of_pos _ (by simp), List.find?_cons_of_pos _ (by simp [hk])]
      rfl
    · rw [show set_outgoingref (a :: t) k v = a :: set_outgoingref t k v by
        simp [set_outgoingref, hk]]
      rw [List.find?_cons_of_neg _ (by simp [hk]), List.find?_cons_of_neg _ (by simp [hk])]
      exact ih

/-- Updating an existing key makes the new value visible to
`get_outgoingref`. -/
lemma get_outgoingref_set (t : RefTable) (k : String) (v r : Int)
    (h : get_outgoingref t k = some r) :
    get_outgoingref (set_outgoingref t k v) k = some v := by
  unfold get_outgoingref at h ⊢
  rw [find_set_outgoingref]
  cases hf : t.find? (fun p => p.1 == k) with
  | none => rw [hf] at h; simp at h
  | some q => simp

/-- `smsdb_get_refid` on a pair with no stored reference returns 0 and
inserts it. -/
lemma smsdb_get_refid_of_none (t : RefTable) (id addr : String)
    (h : get_outgoingref t (id ++ "/" ++ addr) = none) :
    smsdb_get_refid t id addr = (0, ins_outgoingref t (id ++ "/" ++ addr) 0) := by
  simp [smsdb_get_refid, h]

/-- `smsdb_get_refid` on a stored reference r in 0..255 returns
(r + 1) % 256 and stores it. -/
lemma smsdb_get_refid_of_some (t : RefTable) (id addr : String) (r : Int)
    (h : get_outgoingref t (id ++ "/" ++ addr) = some r)
    (h0 : 0 ≤ r) (h1 : r < 256) :
    smsdb_get_refid t id addr =
      ((r + 1) % 256, set_outgoingref t (id ++ "/" ++ addr) ((r + 1) % 256)) := by
  have hmod : (r + 1) % 256 = if r + 1 ≥ 256 then 0 else r + 1 := by
    split <;> omega
  rw [hmod]
  simp [smsdb_get_refid, h, h0]

/-- Closed form of a run of successive `smsdb_get_refid` calls starting from
a stored reference r in 0..255. -/
lemma refid_run_formula (id addr : String) :
    ∀ (n : Nat) (t : RefTable) (r : Int),
      get_outgoingref t (id ++ "/" ++ addr) = some r → 0 ≤ r → r < 256 →
      refid_run t id addr n =
        (List.range n).map (fun i : Nat => (r + 1 + (i : Int)) % 256)
  | 0, _, _, _, _, _ => by simp [refid_run]
  | n + 1, t, r, h, h0, h1 => by
    have hstep := smsdb_get_refid_of_some t id addr r h h0 h1
    have hget : get_outgoingref (smsdb_get_refid t id addr).2 (id ++ "/" ++ addr)
        = some ((r + 1) % 256) := by
      rw [hstep]
      exact get_outgoingref_set t _ _ r h
    have ih := refid_run_formula id addr n (smsdb_get_refid t id addr).2
      ((r + 1) % 256) hget (by omega) (by omega)
    have hr : (List.range (n + 1)).map (fun i : Nat => (r + 1 + (i : Int)) % 256) =
        ((r + 1) % 256) :: (List.range n).map
          (fun i : Nat => ((r + 1) % 256 + 1 + (i : Int)) % 256) := by
      rw [List.range_succ_eq_map, List.map_cons, List.map_map]
      simp only [List.cons.injEq]
      refine ⟨by norm_num, ?_⟩
      refine List.map_congr_left fun a _ => ?_
      simp only [Function.comp_apply]
      push_cast
      omega
    rw [hr, refid_run, ih, hstep]

/-- C5: `smsdb_get_refid` starts at 0 for a fresh (subscriber, destination)
pair (absent row treated as 255, incremented with wraparound), always
returns (previous + 1) % 256 and stores the returned value, every returned
value lies in 0..255, and 256 successive calls from a fresh pair return
0, 1, ..., 255 — each value exactly once before any repeat. -/
theorem smsdb_get_refid_cycle (t : RefTable) (id addr : String) (r : Int) :
    (get_outgoingref t (id ++ "/" ++ addr) = none →
      smsdb_get_refid t id addr = (0, ins_outgoingref t (id ++ "/" ++ addr) 0) ∧
      refid_run t id addr 256 = (List.range 256).map (fun i : Nat => (i : Int))) ∧
    (get_outgoingref t (id ++ "/" ++ addr) = some r → 0 ≤ r → r < 256 →
      (smsdb_get_refid t id addr).1 = (r + 1) % 256 ∧
      get_outgoingref (smsdb_get_refid t id addr).2 (id ++ "/" ++ addr) =
        some ((r + 1) % 256) ∧
      0 ≤ (r + 1) % 256 ∧ (r + 1) % 256 < 256) := by
  constructor
  · intro h
    have hstep := smsdb_get_refid_of_none t id addr h
    refine ⟨hstep, ?_⟩
    have hget : get_outgoingref (smsdb_get_refid t id addr).2 (id ++ "/" ++ addr)
        = some 0 := by
      rw [hstep]
      exact get_outgoingref_ins t _ 0 h
    have hrun := refid_run_formula id addr 255 (smsdb_get_refid t id addr).2 0
      hget (by omega) (by omega)
    have hr : (List.range 256).map (fun i : Nat => (i : Int)) =
        (0 : Int) :: (List.range 255).map
          (fun i : Nat => ((0 : Int) + 1 + (i : Int)) % 256) := by
      rw [show (256 : Nat) = 255 + 1 by norm_num, List.range_succ_eq_map,
        List.map_cons, List.map_map]
      simp only [List.cons.injEq]
      refine ⟨by norm_num, ?_⟩
      refine List.map_congr_left fun a ha => ?_
      have ha2 : a < 255 := List.mem_range.mp ha
      simp only [Function.comp_apply]
      push_cast
      omega
    rw [hr, show (256 : Nat) = 255 + 1 by norm_num, refid_run, hrun, hstep]
  · intro h h0 h1
    have hstep := smsdb_get_refid_of_some t id addr r h h0 h1
    refine ⟨by rw [hstep], ?_, by omega, by omega⟩
    rw [hstep]
    exact get_outgoingref_set t _ _ r h

/-- Witness for C5: a fresh pair cycles through 0..255, and a stored
reference 7 yields (7 + 1) % 256 = 8. -/
theorem smsdb_get_refid_cycle_witness :
    refid_run [] "I" "5" 256 = (List.range 256).map (fun i : Nat => (i : Int)) ∧
    (smsdb_get_refid [("I/5", 7)] "I" "5").1 = (7 + 1) % 256 :=
  ⟨((smsdb_get_refid_cycle [] "I" "5" 0).1 (by decide)).2,
   ((smsdb_get_refid_cycle [("I/5", 7)] "I" "5" 7).2 (by decide) (by decide)
     (by decide)).1⟩

/-- C7 (amended): when the part with the given composite key exists (and, as
the PRIMARY KEY(key) guarantees, only parts of the same message carry that
key), its message row exists, and after the status write the declared part
count equals the count of parts with terminal status, then the
`smsdb_outgoing_part_status` call returns success with the part statuses in
insertion order plus the -1 sentinel and purges the message's rows; no rows
for the message remain, and any later call with the same key returns the
error code -1 with the store unchanged.  (`dbU` names the store after the
status write.) -/
theorem part_status_settles_once (db dbU : OutDB) (id addr : String)
    (mr st st2 : Int) (p : OutPart) (m : OutMsg)
    (hfind : db.parts.find? (fun q => q.key == outgoing_part_key id addr mr) = some p)
    (hkey : ∀ q ∈ db.parts, q.key = outgoing_part_key id addr mr → q.msg = p.msg)
    (hdbU : dbU = { db with parts := db.parts.map (fun q =>
        if q.rowid == p.rowid then { q with status := some st } else q) })
    (hmsg : db.msgs.find? (fun m2 => m2.uid == p.msg) = some m)
    (hcnt : m.cnt = ((dbU.parts.filter
        (fun q => q.msg == p.msg && statusTerminal q.status)).length : Int)) :
    smsdb_outgoing_part_status db id addr mr st =
      (0, get_all_status dbU p.msg ++ [-1], smsdb_outgoing_clear_nolock dbU p.msg) ∧
    (smsdb_outgoing_clear_nolock dbU p.msg).msgs.find?
        (fun m2 => m2.uid == p.msg) = none ∧
    (smsdb_outgoing_clear_nolock dbU p.msg).parts.filter
        (fun q => q.msg == p.msg) = [] ∧
    smsdb_outgoing_part_status (smsdb_outgoing_clear_nolock dbU p.msg)
        id addr mr st2 =
      (-1, [], smsdb_outgoing_clear_nolock dbU p.msg) := by
  subst hdbU
  have hmain : smsdb_outgoing_part_status db id addr mr st =
      (0, get_all_status { db with parts := db.parts.map (fun q =>
          if q.rowid == p.rowid then { q with status := some st } else q) } p.msg ++ [-1],
        smsdb_outgoing_clear_nolock { db with parts := db.parts.map (fun q =>
          if q.rowid == p.rowid then { q with status := some st } else q) } p.msg) := by
    simp only [smsdb_outgoing_part_status, hfind, hmsg, hcnt]
    simp
  refine ⟨hmain, ?_, ?_, ?_⟩
  · apply List.find?_eq_none.mpr
    intro x hx
    simp only [smsdb_outgoing_clear_nolock] at hx
    have hx2 := List.mem_filter.mp hx
    simpa using hx2.2
  · apply List.filter_eq_nil_iff.mpr
    intro q hq
    simp only [smsdb_outgoing_clear_nolock] at hq
    have hq2 := List.mem_filter.mp hq
    simpa using hq2.2
  · have hnone : (smsdb_outgoing_clear_nolock { db with parts := db.parts.map (fun q =>
        if q.rowid == p.rowid then { q with status := some st } else q) } p.msg).parts.find?
        (fun q => q.key == outgoing_part_key id addr mr) = none := by
      apply List.find?_eq_none.mpr
      intro q hq hqk
      simp only [smsdb_outgoing_clear_nolock] at hq
      have hq2 := List.mem_filter.mp hq
      obtain ⟨q0, hq0, hq0eq⟩ := List.mem_map.mp hq2.1
      have hpres : q.key = q0.key ∧ q.msg = q0.msg := by
        rw [← hq0eq]
        split <;> simp
      have hqkey : q.key = outgoing_part_key id addr mr := by
        simpa using hqk
      have : q.msg = p.msg := by
        rw [hpres.2]
        exact hkey q0 hq0 (by rw [← hpres.1]; exact hqkey)
      simp [this] at hq2
    simp only [smsdb_outgoing_part_status, hnone]

/-- Witness for C7 (amended): a one-part message with a requested delivery
report settles on the first terminal status and a repeated update fails. -/
theorem part_status_settles_once_witness :
    smsdb_outgoing_part_status
        ⟨[⟨1, "D", "N", 1, 100, true⟩], [⟨0, "D/N/5", 1, none⟩], 1⟩ "D" "N" 5 0 =
      (0, get_all_status ⟨[⟨1, "D", "N", 1, 100, true⟩],
          [⟨0, "D/N/5", 1, some 0⟩], 1⟩ 1 ++ [-1],
        smsdb_outgoing_clear_nolock ⟨[⟨1, "D", "N", 1, 100, true⟩],
          [⟨0, "D/N/5", 1, some 0⟩], 1⟩ 1) ∧
    (smsdb_outgoing_clear_nolock ⟨[⟨1, "D", "N", 1, 100, true⟩],
        [⟨0, "D/N/5", 1, some 0⟩], 1⟩ 1).msgs.find?
        (fun m2 => m2.uid == 1) = none ∧
    (smsdb_outgoing_clear_nolock ⟨[⟨1, "D", "N", 1, 100, true⟩],
        [⟨0, "D/N/5", 1, some 0⟩], 1⟩ 1).parts.filter
        (fun q => q.msg == 1) = [] ∧
    smsdb_outgoing_part_status (smsdb_outgoing_clear_nolock
        ⟨[⟨1, "D", "N", 1, 100, true⟩], [⟨0, "D/N/5", 1, some 0⟩], 1⟩ 1)
        "D" "N" 5 3 =
      (-1, [], smsdb_outgoing_clear_nolock ⟨[⟨1, "D", "N", 1, 100, true⟩],
        [⟨0, "D/N/5", 1, some 0⟩], 1⟩ 1) := by
  exact part_status_settles_once
    ⟨[⟨1, "D", "N", 1, 100, true⟩], [⟨0, "D/N/5", 1, none⟩], 1⟩
    ⟨[⟨1, "D", "N", 1, 100, true⟩], [⟨0, "D/N/5", 1, some 0⟩], 1⟩
    "D" "N" 5 0 3 ⟨0, "D/N/5", 1, none⟩ ⟨1, "D", "N", 1, 100, true⟩
    (by decide) (by decide) (by decide) (by decide) (by decide)
